import Mathlib

/-!
Verification of `src/umap/geodata.py` (`gpkg_to_geojson`): a shallow
embedding of the conversion function and proofs of the specified
properties.

The Python function converts a GeoPackage (a file-like object of bytes)
into GeoJSON bytes.  It first probes for the `fiona` library; when fiona
is importable it takes the library path (write the bytes to a temporary
file created with `delete=False`, open layer 0, build one GeoJSON
Feature per record with best-effort reprojection to EPSG:4326, serialize
with `json.dumps(...).encode("utf-8")`, and unlink the temporary file in
a `finally` block).  When fiona is not importable it takes the process
path (write the bytes to a `NamedTemporaryFile` that is deleted when its
`with` block exits, run `ogr2ogr -f GeoJSON /vsistdout/ <tmp>`, return
the captured stdout on exit status 0, and raise
`RuntimeError("ogr2ogr failed: " + stderr.decode("utf-8", errors="replace"))`
on a non-zero exit status).

Embedding choices:
* Python values that flow through the function (geometries, property
  mappings) are modelled by the JSON-like type `JVal`; Python truthiness
  (`if geom:`, `props or` and so on) is `JVal.truthy`.
* The fiona library, when available, is modelled by `FionaEnv`: an
  opener from file bytes to a dataset (fiona reads the temporary file,
  whose content is exactly the bytes written to it) and the
  `transform_geom` reprojection, both of which may fail the way the
  corresponding Python calls may raise.
* Exceptions are values of `PyErr`: `runtimeError` for `RuntimeError`,
  `libError` for an exception raised by fiona (fiona exceptions such as
  `DriverError` are not `RuntimeError`s), `ioError` for an exception
  raised by `file_obj.read()` / the temporary-file write.
* The temporary-file system is explicit state (`FsState`): a name
  allocator plus a list of live files, so that creation, write, the
  `with`-block deletion and `Path(tmp_path).unlink()` are all visible
  and cleanup claims can be stated exactly.
* `json.dumps` (default separators, `ensure_ascii=True`) and
  `bytes.decode("utf-8", errors="replace")` are modelled by `jsonDumps`
  and `utf8DecodeReplace`; both are total executable functions.
-/

namespace Umap

/-- A JSON-like value, the type of Python data flowing through
`gpkg_to_geojson` (geometries, property mappings, the final document).
`null` also models an absent value (`dict.get` returning `None`). -/
inductive JVal where
  | null : JVal
  | bool : Bool → JVal
  | num : Int → JVal
  | str : String → JVal
  | arr : List JVal → JVal
  | obj : List (String × JVal) → JVal

/-- Python truthiness of a `JVal` (`None`, `False`, `0`, `""`, empty
containers are falsy). -/
def JVal.truthy : JVal → Bool
  | .null => false
  | .bool b => b
  | .num n => n != 0
  | .str s => !s.isEmpty
  | .arr xs => !xs.isEmpty
  | .obj kvs => !kvs.isEmpty

/-- Hexadecimal digit character (lowercase, as printed by Python's
`json.dumps` escapes). -/
def hexDigitChar (n : Nat) : Char :=
  if n < 10 then Char.ofNat (48 + n) else Char.ofNat (87 + n % 16)

/-- Four-digit lowercase hexadecimal rendering used in JSON escapes. -/
def hex4 (n : Nat) : String :=
  String.mk [hexDigitChar ((n / 4096) % 16), hexDigitChar ((n / 256) % 16),
    hexDigitChar ((n / 16) % 16), hexDigitChar (n % 16)]

/-- Escaping of one character inside a JSON string literal, following
Python `json.dumps` defaults (`ensure_ascii=True`): the two mandatory
escapes, the short control escapes, numeric escapes for the remaining
control characters, raw ASCII otherwise, and numeric escapes (with
surrogate pairs above the BMP) for all non-ASCII characters. -/
def escapeJsonChar (c : Char) : String :=
  if c = '"' then "\\\""
  else if c = '\\' then "\\\\"
  else if c = '\n' then "\\n"
  else if c = '\r' then "\\r"
  else if c = '\t' then "\\t"
  else if c.toNat = 8 then "\\b"
  else if c.toNat = 12 then "\\f"
  else if c.toNat < 32 then "\\u" ++ hex4 c.toNat
  else if c.toNat < 128 then String.singleton c
  else if c.toNat < 65536 then "\\u" ++ hex4 c.toNat
  else
    "\\u" ++ hex4 (55296 + (c.toNat - 65536) / 1024) ++
      "\\u" ++ hex4 (56320 + (c.toNat - 65536) % 1024)

/-- A JSON string literal with quotes, as produced by `json.dumps`. -/
def jsonQuote (s : String) : String :=
  "\"" ++ String.join (s.data.map escapeJsonChar) ++ "\""

mutual

/-- Serialization of a `JVal` following Python `json.dumps` defaults
(item separator `", "`, key separator `": "`). -/
def jsonDumps : JVal → String
  | .null => "null"
  | .bool b => if b then "true" else "false"
  | .num n => toString n
  | .str s => jsonQuote s
  | .arr xs => "[" ++ String.intercalate ", " (jsonDumpsList xs) ++ "]"
  | .obj kvs => "\x7b" ++ String.intercalate ", " (jsonDumpsObj kvs) ++ "\x7d"

/-- Serialization of the elements of a JSON array. -/
def jsonDumpsList : List JVal → List String
  | [] => []
  | x :: xs => jsonDumps x :: jsonDumpsList xs

/-- Serialization of the members of a JSON object. -/
def jsonDumpsObj : List (String × JVal) → List String
  | [] => []
  | kv :: kvs => (jsonQuote kv.1 ++ ": " ++ jsonDumps kv.2) :: jsonDumpsObj kvs

end

/-- UTF-8 encoding of one character. -/
def utf8EncodeChar (c : Char) : List Nat :=
  let n := c.toNat
  if n < 128 then [n]
  else if n < 2048 then [192 + n / 64, 128 + n % 64]
  else if n < 65536 then [224 + n / 4096, 128 + (n / 64) % 64, 128 + n % 64]
  else [240 + n / 262144, 128 + (n / 4096) % 64, 128 + (n / 64) % 64, 128 + n % 64]

/-- UTF-8 encoding of a string, as a list of byte values; models Python
`str.encode("utf-8")`. -/
def utf8Encode (s : String) : List Nat := (s.data.map utf8EncodeChar).flatten

/-- Is the byte a UTF-8 continuation byte? -/
def contByte (b : Nat) : Bool := decide (128 ≤ b) && decide (b < 192)

/-- Decode one UTF-8 code point starting at byte `b1` with lookahead
`rest`: returns the decoded character (U+FFFD on a malformed sequence)
and how many bytes of `rest` were consumed in addition to `b1`. -/
def utf8DecodeOne (b1 : Nat) (rest : List Nat) : Char × Nat :=
  if b1 < 128 then (Char.ofNat b1, 0)
  else if b1 < 194 then (Char.ofNat 65533, 0)
  else if b1 < 224 then
    match rest with
    | [] => (Char.ofNat 65533, 0)
    | b2 :: _ =>
      if contByte b2 then (Char.ofNat ((b1 - 192) * 64 + (b2 - 128)), 1)
      else (Char.ofNat 65533, 0)
  else if b1 < 240 then
    match rest with
    | [] => (Char.ofNat 65533, 0)
    | b2 :: rest2 =>
      if contByte b2 && decide (b1 ≠ 224 ∨ 160 ≤ b2) && decide (b1 ≠ 237 ∨ b2 < 160) then
        match rest2 with
        | [] => (Char.ofNat 65533, 1)
        | b3 :: _ =>
          if contByte b3 then
            (Char.ofNat ((b1 - 224) * 4096 + (b2 - 128) * 64 + (b3 - 128)), 2)
          else (Char.ofNat 65533, 1)
      else (Char.ofNat 65533, 0)
  else if b1 < 245 then
    match rest with
    | [] => (Char.ofNat 65533, 0)
    | b2 :: rest2 =>
      if contByte b2 && decide (b1 ≠ 240 ∨ 144 ≤ b2) && decide (b1 ≠ 244 ∨ b2 < 144) then
        match rest2 with
        | [] => (Char.ofNat 65533, 1)
        | b3 :: rest3 =>
          if contByte b3 then
            match rest3 with
            | [] => (Char.ofNat 65533, 2)
            | b4 :: _ =>
              if contByte b4 then
                (Char.ofNat ((b1 - 240) * 262144 + (b2 - 128) * 4096 +
                  (b3 - 128) * 64 + (b4 - 128)), 3)
              else (Char.ofNat 65533, 2)
          else (Char.ofNat 65533, 1)
      else (Char.ofNat 65533, 0)
  else (Char.ofNat 65533, 0)

/-- Fuelled decoding loop; every step consumes at least one byte, so
fuel equal to the byte count always suffices. -/
def utf8DecodeLoop : Nat → List Nat → List Char
  | 0, _ => []
  | _, [] => []
  | fuel + 1, b1 :: rest =>
    let step := utf8DecodeOne b1 rest
    step.1 :: utf8DecodeLoop fuel (rest.drop step.2)

/-- Total UTF-8 decoding with replacement of malformed sequences by
U+FFFD; models Python `bytes.decode("utf-8", errors="replace")`.  It
never fails, whatever the input bytes. -/
def utf8DecodeReplace (bs : List Nat) : String :=
  String.mk (utf8DecodeLoop bs.length bs)

/-- One record of the first layer, as iterated by `for rec in src`:
the results of `rec.get("geometry")` and `rec.get("properties")`
(`JVal.null` models an absent key / `None`). -/
structure PyRecord where
  geometry : JVal
  properties : JVal

/-- The opened vector dataset (`fiona.open(tmp_path, layer=0)`): the CRS
metadata of the first layer (`src.crs`, `none` models a `None` CRS) and
its records in encounter order. -/
structure Dataset where
  crs : Option (List (String × String))
  records : List PyRecord

/-- The fiona library as consumed by the code: opening the written file
as a dataset (may raise, like `fiona.open`), and
`transform_geom(src_crs, dst_crs, geom)` with the destination fixed to
`dict init = epsg:4326` at the call site (may raise). -/
structure FionaEnv where
  openDs : List Nat → Except String Dataset
  transform_geom : List (String × String) → JVal → Except String JVal

/-- Result of the completed `ogr2ogr` subprocess: exit status and the
captured stdout/stderr bytes. -/
structure ProcResult where
  exitCode : Nat
  stdout : List Nat
  stderr : List Nat

/-- The runtime environment of one call: whether `import fiona`
succeeds (and if so the library), the external `ogr2ogr` converter as a
function of the input file's bytes, and the outcome of
`file_obj.read()` (bytes, or the exception it raises). -/
structure Env where
  fiona : Option FionaEnv
  ogr2ogr : List Nat → ProcResult
  readSource : Except String (List Nat)

/-- The exceptions that can escape `gpkg_to_geojson`: `RuntimeError`,
an exception raised by fiona (such as `fiona.errors.DriverError`, which
is not a `RuntimeError`), or an exception from reading the source. -/
inductive PyErr where
  | runtimeError : String → PyErr
  | libError : String → PyErr
  | ioError : String → PyErr
deriving DecidableEq

/-- The temporary-file system visible to one call: a fresh-name
allocator and the live files with their contents. -/
structure FsState where
  nextTmp : Nat
  files : List (Nat × List Nat)

/-- `tempfile.NamedTemporaryFile(...)`: allocates a fresh name and
creates the (empty) file, returning its name and the new state. -/
def createTmp (s : FsState) : Nat × FsState :=
  (s.nextTmp, ⟨s.nextTmp + 1, (s.nextTmp, []) :: s.files⟩)

/-- Replace the content of the first file with the given name. -/
def replaceFirst : List (Nat × List Nat) → Nat → List Nat → List (Nat × List Nat)
  | [], _, _ => []
  | f :: fs, name, content =>
    if f.1 = name then (name, content) :: fs else f :: replaceFirst fs name content

/-- `tmp.write(...)` followed by `tmp.flush()`. -/
def writeFile (s : FsState) (name : Nat) (content : List Nat) : FsState :=
  ⟨s.nextTmp, replaceFirst s.files name content⟩

/-- Reading the content of a file by name (what `fiona.open` or the
subprocess sees at the temporary path); defaults to empty if absent. -/
def readFileD (s : FsState) (name : Nat) : List Nat :=
  ((s.files.lookup name).getD [])

/-- Remove the first file with the given name. -/
def eraseFirst : List (Nat × List Nat) → Nat → List (Nat × List Nat)
  | [], _ => []
  | f :: fs, name => if f.1 = name then fs else f :: eraseFirst fs name

/-- `Path(name).unlink()`, and also the deletion a `NamedTemporaryFile`
`with` block performs on exit when `delete=True`. -/
def unlink (s : FsState) (name : Nat) : FsState :=
  ⟨s.nextTmp, eraseFirst s.files name⟩

/-- `rec.get("properties") or \x7b\x7d`: an absent or falsy mapping
becomes the empty mapping. -/
def normProps (p : JVal) : JVal := if p.truthy then p else JVal.obj []

/-- The reprojection guard `src_crs and src_crs.get("init") != "epsg:4326"`
(with `src_crs` already normalised by `src.crs or \x7b\x7d`). -/
def needsReproject (src_crs : List (String × String)) : Bool :=
  !src_crs.isEmpty && !(src_crs.lookup "init" == some "epsg:4326")

/-- The geometry stored in the output feature: present geometries whose
source CRS requires reprojection are passed through `transform_geom`,
keeping the original geometry when the transform raises; all other
geometries are kept as read. -/
def featGeometry (fiona : FionaEnv) (src_crs : List (String × String)) (geom : JVal) : JVal :=
  if geom.truthy then
    if needsReproject src_crs then
      match fiona.transform_geom src_crs geom with
      | .ok g => g
      | .error _ => geom
    else geom
  else geom

/-- The loop body of the library path: the Feature object appended for
one record. -/
def mkFeature (fiona : FionaEnv) (src_crs : List (String × String)) (rec : PyRecord) : JVal :=
  JVal.obj [("type", JVal.str "Feature"),
    ("geometry", featGeometry fiona src_crs rec.geometry),
    ("properties", normProps rec.properties)]

/-- Shallow embedding of `gpkg_to_geojson(file_obj)` from
`src/umap/geodata.py`.  The first component is the returned bytes or
the escaping exception; the second is the file system after the call.

Library path (`fiona` importable): `NamedTemporaryFile(delete=False)`
creates the file; `tmp.write(file_obj.read())` happens inside the
`with` block, so if reading the source raises, the block only closes
the handle and the file stays on disk.  Then `fiona.open` on the
written file; on success one Feature per record in order, serialized
and returned; the `finally` block unlinks the temporary file around
both the success and the `fiona.open`-failure exits.

Process path (`import fiona` fails): `NamedTemporaryFile()` (deleted
whenever its `with` block exits), run `ogr2ogr` on the written file,
return its stdout verbatim on exit status 0, otherwise raise
`RuntimeError` embedding the replace-decoded stderr. -/
def gpkg_to_geojson (env : Env) (s : FsState) : Except PyErr (List Nat) × FsState :=
  match env.fiona with
  | some fiona =>
    let tmp_path := (createTmp s).1
    let s1 := (createTmp s).2
    match env.readSource with
    | .error e => (.error (.ioError e), s1)
    | .ok content =>
      let s2 := writeFile s1 tmp_path content
      match fiona.openDs (readFileD s2 tmp_path) with
      | .error e => (.error (.libError e), unlink s2 tmp_path)
      | .ok src =>
        let src_crs := src.crs.getD []
        let features := src.records.map (mkFeature fiona src_crs)
        let geojson := JVal.obj [("type", JVal.str "FeatureCollection"),
          ("features", JVal.arr features)]
        (.ok (utf8Encode (jsonDumps geojson)), unlink s2 tmp_path)
  | none =>
    let tmp_in := (createTmp s).1
    let s1 := (createTmp s).2
    match env.readSource with
    | .error e => (.error (.ioError e), unlink s1 tmp_in)
    | .ok content =>
      let s2 := writeFile s1 tmp_in content
      let proc := env.ogr2ogr (readFileD s2 tmp_in)
      if proc.exitCode = 0 then (.ok proc.stdout, unlink s2 tmp_in)
      else (.error (.runtimeError ("ogr2ogr failed: " ++ utf8DecodeReplace proc.stderr)),
        unlink s2 tmp_in)

/-- The value returned (or exception raised) by one call, as a function
of the runtime environment alone; used to state that the result does
not depend on the temporary-file state. -/
def convertResult (env : Env) : Except PyErr (List Nat) :=
  match env.fiona with
  | some fiona =>
    match env.readSource with
    | .error e => .error (.ioError e)
    | .ok content =>
      match fiona.openDs content with
      | .error e => .error (.libError e)
      | .ok src =>
        let src_crs := src.crs.getD []
        .ok (utf8Encode (jsonDumps (JVal.obj [("type", JVal.str "FeatureCollection"),
          ("features", JVal.arr (src.records.map (mkFeature fiona src_crs)))])))
  | none =>
    match env.readSource with
    | .error e => .error (.ioError e)
    | .ok content =>
      let proc := env.ogr2ogr content
      if proc.exitCode = 0 then .ok proc.stdout
      else .error (.runtimeError ("ogr2ogr failed: " ++ utf8DecodeReplace proc.stderr))

/-- The library path in isolation: what the `if fiona:` block computes.
It mentions no external process, so equality with `gpkg_to_geojson`
expresses that a present library is used exclusively. -/
def libraryPathRun (fiona : FionaEnv) (source : Except String (List Nat)) (s : FsState) :
    Except PyErr (List Nat) × FsState :=
  let tmp_path := (createTmp s).1
  let s1 := (createTmp s).2
  match source with
  | .error e => (.error (.ioError e), s1)
  | .ok content =>
    let s2 := writeFile s1 tmp_path content
    match fiona.openDs (readFileD s2 tmp_path) with
    | .error e => (.error (.libError e), unlink s2 tmp_path)
    | .ok src =>
      let src_crs := src.crs.getD []
      (.ok (utf8Encode (jsonDumps (JVal.obj [("type", JVal.str "FeatureCollection"),
        ("features", JVal.arr (src.records.map (mkFeature fiona src_crs)))]))),
        unlink s2 tmp_path)

/-- The process path in isolation: the ogr2ogr fallback block.  It
mentions no library, so equality with `gpkg_to_geojson` expresses that
the fallback runs only from the library's absence. -/
def processPathRun (runner : List Nat → ProcResult) (source : Except String (List Nat))
    (s : FsState) : Except PyErr (List Nat) × FsState :=
  let tmp_in := (createTmp s).1
  let s1 := (createTmp s).2
  match source with
  | .error e => (.error (.ioError e), unlink s1 tmp_in)
  | .ok content =>
    let s2 := writeFile s1 tmp_in content
    let proc := runner (readFileD s2 tmp_in)
    if proc.exitCode = 0 then (.ok proc.stdout, unlink s2 tmp_in)
    else (.error (.runtimeError ("ogr2ogr failed: " ++ utf8DecodeReplace proc.stderr)),
      unlink s2 tmp_in)

/-- A sample point geometry. -/
def pointGeom : JVal :=
  JVal.obj [("type", JVal.str "Point"),
    ("coordinates", JVal.arr [JVal.num 1, JVal.num 2])]

/-- A second sample point geometry, used as a transform target. -/
def pointGeomB : JVal :=
  JVal.obj [("type", JVal.str "Point"),
    ("coordinates", JVal.arr [JVal.num 3, JVal.num 4])]

/-- A record with a geometry and one property. -/
def recA : PyRecord := ⟨pointGeom, JVal.obj [("name", JVal.str "a")]⟩

/-- A record with absent geometry and absent properties. -/
def recNullGeom : PyRecord := ⟨JVal.null, JVal.null⟩

/-- A two-record dataset already in the target CRS. -/
def dsSame : Dataset := ⟨some [("init", "epsg:4326")], [recA, recNullGeom]⟩

/-- A fiona stub that opens `dsSame` and has an identity transform. -/
def libSame : FionaEnv := ⟨fun _ => Except.ok dsSame, fun _ g => Except.ok g⟩

/-- An external converter stub that always fails (never consulted on
the library path). -/
def noProc : List Nat → ProcResult := fun _ => ⟨1, [], []⟩

/-- Environment: fiona present, source readable. -/
def envLibSame : Env := ⟨some libSame, noProc, Except.ok [1, 2]⟩

/-- A one-record dataset in a CRS that differs from the target. -/
def dsOther : Dataset := ⟨some [("init", "epsg:3857")], [recA]⟩

/-- A fiona stub whose transform always raises. -/
def libFailingTransform : FionaEnv :=
  ⟨fun _ => Except.ok dsOther, fun _ _ => Except.error "transform failed"⟩

/-- Environment: fiona present, every reprojection fails. -/
def envFailingTransform : Env := ⟨some libFailingTransform, noProc, Except.ok [1, 2]⟩

/-- A fiona stub whose open always raises, the way `fiona.open` raises
`DriverError` on bytes it does not recognise. -/
def libBadOpen : FionaEnv :=
  ⟨fun _ => Except.error "not recognized as a supported file format", fun _ g => Except.ok g⟩

/-- Environment: fiona present but the input is rejected by the
library. -/
def envBadOpen : Env := ⟨some libBadOpen, noProc, Except.ok [0]⟩

/-- Environment: fiona present but reading the source object raises. -/
def envReadFail : Env := ⟨some libSame, noProc, Except.error "read error"⟩

/-- A fiona stub whose transform returns `pointGeomB`. -/
def libToB : FionaEnv := ⟨fun _ => Except.ok dsOther, fun _ _ => Except.ok pointGeomB⟩

/-- The bytes of the empty FeatureCollection document, as the stub of
the process-path success test writes them. -/
def emptyFcBytes : List Nat :=
  utf8Encode "\x7b\"type\":\"FeatureCollection\",\"features\":[]\x7d"

/-- An external converter stub that writes the empty FeatureCollection
to stdout and exits 0. -/
def okStub : List Nat → ProcResult := fun _ => ⟨0, emptyFcBytes, []⟩

/-- Environment: fiona absent, converter succeeds. -/
def envProcOk : Env := ⟨none, okStub, Except.ok [1]⟩

/-- An external converter stub that exits 1 with stderr "bad layer". -/
def badLayerStub : List Nat → ProcResult := fun _ => ⟨1, [], utf8Encode "bad layer"⟩

/-- Environment: fiona absent, converter fails with "bad layer". -/
def envProcFail : Env := ⟨none, badLayerStub, Except.ok [1]⟩

/-- Reading back the temporary file right after creating it and writing
`b` to it yields `b`: the library/process sees exactly the source
bytes. -/
theorem readFileD_write_create (s : FsState) (b : List Nat) :
    readFileD (writeFile (createTmp s).2 (createTmp s).1 b) ((createTmp s).1) = b := by
  simp [createTmp, writeFile, readFileD, replaceFirst, List.lookup]

/-- Unlinking the temporary file after create-and-write restores the
file list and leaves only the advanced allocator. -/
theorem unlink_write_create (s : FsState) (b : List Nat) :
    unlink (writeFile (createTmp s).2 (createTmp s).1 b) ((createTmp s).1) =
      ⟨s.nextTmp + 1, s.files⟩ := by
  simp [createTmp, writeFile, unlink, replaceFirst, eraseFirst]

/-- Unlinking the temporary file right after creating it restores the
file list. -/
theorem unlink_create (s : FsState) :
    unlink (createTmp s).2 ((createTmp s).1) = ⟨s.nextTmp + 1, s.files⟩ := by
  simp [createTmp, unlink, eraseFirst]

/-- The returned value (or escaping exception) of a call depends only
on the environment, not on the temporary-file state. -/
theorem gpkg_result_eq (env : Env) (s : FsState) :
    (gpkg_to_geojson env s).1 = convertResult env := by
  unfold gpkg_to_geojson convertResult
  cases env.fiona with
  | none =>
    cases env.readSource with
    | error e => rfl
    | ok content =>
      simp only [readFileD_write_create]
      split <;> rfl
  | some fiona =>
    cases env.readSource with
    | error e => rfl
    | ok content =>
      simp only [readFileD_write_create]
      cases fiona.openDs content <;> rfl

/-- C9: the conversion is a deterministic function of the input bytes:
its result does not depend on the temporary-file state (in particular
not on which temporary names get allocated), so calling
`gpkg_to_geojson` twice in the same environment — including calling it
a second time on the state left by the first call — yields the
identical bytes (or the identical failure) both times. -/
theorem c9_deterministic (env : Env) (s1 s2 : FsState) :
    (gpkg_to_geojson env s1).1 = (gpkg_to_geojson env s2).1
    ∧ (gpkg_to_geojson env ((gpkg_to_geojson env s1).2)).1 = (gpkg_to_geojson env s1).1 := by
  constructor
  · rw [gpkg_result_eq, gpkg_result_eq]
  · rw [gpkg_result_eq, gpkg_result_eq]

/-- C6: the library path is always tried first, with availability read
at call time from the current call's environment: when fiona is present
the whole call (result and file-system effect) is the library-path
computation, unchanged under any replacement of the external converter
— so no failure inside the library path ever falls back to the process
path — and when fiona is absent the call is exactly the process-path
computation. -/
theorem c6_path_selection (env : Env) (s : FsState) :
    (∀ lib : FionaEnv, env.fiona = some lib →
      (∀ f : List Nat → ProcResult,
          gpkg_to_geojson { env with ogr2ogr := f } s = gpkg_to_geojson env s)
      ∧ gpkg_to_geojson env s = libraryPathRun lib env.readSource s)
    ∧ (env.fiona = none →
        gpkg_to_geojson env s = processPathRun env.ogr2ogr env.readSource s) := by
  constructor
  · intro lib hl
    constructor
    · intro f
      simp only [gpkg_to_geojson, hl]
    · simp only [gpkg_to_geojson, libraryPathRun, hl]
  · intro hn
    simp only [gpkg_to_geojson, processPathRun, hn]

/-- C6 witness: with fiona present (environment `envLibSame`), the call
equals the library-path run and is unchanged under swapping in the
always-failing converter stub. -/
theorem c6_witness :
    gpkg_to_geojson { envLibSame with ogr2ogr := okStub } ⟨0, []⟩ =
      gpkg_to_geojson envLibSame ⟨0, []⟩
    ∧ gpkg_to_geojson envLibSame ⟨0, []⟩ =
        libraryPathRun libSame envLibSame.readSource ⟨0, []⟩
    ∧ gpkg_to_geojson envProcOk ⟨0, []⟩ =
        processPathRun envProcOk.ogr2ogr envProcOk.readSource ⟨0, []⟩ :=
  ⟨((c6_path_selection envLibSame ⟨0, []⟩).1 libSame rfl).1 okStub,
   ((c6_path_selection envLibSame ⟨0, []⟩).1 libSame rfl).2,
   (c6_path_selection envProcOk ⟨0, []⟩).2 rfl⟩

/-- C7: on the process path (fiona absent), when the external converter
exits with status zero the call returns exactly the bytes the process
wrote to standard output, unmodified. -/
theorem c7_process_stdout_verbatim (env : Env) (s : FsState) (b : List Nat)
    (hf : env.fiona = none) (hr : env.readSource = Except.ok b)
    (hz : (env.ogr2ogr b).exitCode = 0) :
    (gpkg_to_geojson env s).1 = Except.ok ((env.ogr2ogr b).stdout) := by
  rw [gpkg_result_eq]
  simp only [convertResult, hf, hr, hz]
  rfl

/-- C7 witness: the stub that writes the empty-FeatureCollection bytes
and exits 0 makes the call return exactly those bytes. -/
theorem c7_witness :
    (gpkg_to_geojson envProcOk ⟨0, []⟩).1 = Except.ok emptyFcBytes :=
  c7_process_stdout_verbatim envProcOk ⟨0, []⟩ [1] rfl rfl rfl

/-- C8: on the process path (fiona absent), a non-zero exit status
raises the single conversion error `RuntimeError` whose message embeds
the replace-decoded standard-error text — for arbitrary stderr bytes,
so a malformed byte sequence cannot cause a secondary decoding failure
— and when the stderr bytes spell "bad layer" the message contains
"bad layer". -/
theorem c8_process_error_message (env : Env) (s : FsState) (b : List Nat)
    (hf : env.fiona = none) (hr : env.readSource = Except.ok b)
    (hz : (env.ogr2ogr b).exitCode ≠ 0) :
    (gpkg_to_geojson env s).1 =
      Except.error (PyErr.runtimeError
        ("ogr2ogr failed: " ++ utf8DecodeReplace (env.ogr2ogr b).stderr))
    ∧ ((env.ogr2ogr b).stderr = utf8Encode "bad layer" →
        ∃ pre post : String,
          "ogr2ogr failed: " ++ utf8DecodeReplace (env.ogr2ogr b).stderr =
            pre ++ "bad layer" ++ post) := by
  constructor
  · rw [gpkg_result_eq]
    simp only [convertResult, hf, hr]
    rw [if_neg hz]
  · intro hb
    refine ⟨"ogr2ogr failed: ", "", ?_⟩
    rw [hb]
    decide

/-- C8 witness: the stub exiting 1 with stderr "bad layer" produces the
RuntimeError message embedding the decoded stderr, and that message
contains "bad layer". -/
theorem c8_witness :
    (gpkg_to_geojson envProcFail ⟨0, []⟩).1 =
      Except.error (PyErr.runtimeError
        ("ogr2ogr failed: " ++ utf8DecodeReplace (envProcFail.ogr2ogr [1]).stderr))
    ∧ ((envProcFail.ogr2ogr [1]).stderr = utf8Encode "bad layer" →
        ∃ pre post : String,
          "ogr2ogr failed: " ++ utf8DecodeReplace (envProcFail.ogr2ogr [1]).stderr =
            pre ++ "bad layer" ++ post) :=
  c8_process_error_message envProcFail ⟨0, []⟩ [1] rfl rfl (by decide)

/-- C1: on the library path (fiona present, source readable, first
layer opened with N records), the call returns the UTF-8 bytes of the
JSON document with top-level keys type = "FeatureCollection" and
features, where the features array has exactly N elements, its i-th
element built from the i-th source record (encounter order preserved),
carrying that record's geometry (reprojected per the CRS policy) and
its property mapping. -/
theorem c1_library_path_shape (env : Env) (s : FsState) (lib : FionaEnv)
    (b : List Nat) (ds : Dataset)
    (hf : env.fiona = some lib) (hr : env.readSource = Except.ok b)
    (ho : lib.openDs b = Except.ok ds) :
    ∃ feats : List JVal,
      (gpkg_to_geojson env s).1 =
        Except.ok (utf8Encode (jsonDumps (JVal.obj
          [("type", JVal.str "FeatureCollection"), ("features", JVal.arr feats)])))
      ∧ feats.length = ds.records.length
      ∧ ∀ i : Nat, ∀ r : PyRecord, ds.records[i]? = some r →
          feats[i]? = some (JVal.obj [("type", JVal.str "Feature"),
            ("geometry", featGeometry lib (ds.crs.getD []) r.geometry),
            ("properties", normProps r.properties)]) := by
  refine ⟨ds.records.map (mkFeature lib (ds.crs.getD [])), ?_, ?_, ?_⟩
  · rw [gpkg_result_eq]
    simp only [convertResult, hf, hr, ho]
  · exact List.length_map ds.records (mkFeature lib (ds.crs.getD []))
  · intro i r hrec
    rw [List.getElem?_map, hrec]
    rfl

/-- C1 witness: the two-record stub dataset yields a FeatureCollection
of two features, in order, with the records' geometries and
properties. -/
theorem c1_witness :
    ∃ feats : List JVal,
      (gpkg_to_geojson envLibSame ⟨0, []⟩).1 =
        Except.ok (utf8Encode (jsonDumps (JVal.obj
          [("type", JVal.str "FeatureCollection"), ("features", JVal.arr feats)])))
      ∧ feats.length = dsSame.records.length
      ∧ ∀ i : Nat, ∀ r : PyRecord, dsSame.records[i]? = some r →
          feats[i]? = some (JVal.obj [("type", JVal.str "Feature"),
            ("geometry", featGeometry libSame (dsSame.crs.getD []) r.geometry),
            ("properties", normProps r.properties)]) :=
  c1_library_path_shape envLibSame ⟨0, []⟩ libSame [1, 2] dsSame rfl rfl rfl

/-- C10: on the library path, every output feature is an object with
exactly the keys type, geometry, properties, with type = "Feature"; a
record whose geometry is absent/null is still emitted (never dropped)
with a null geometry that is never handed to the reprojection transform
(its stored geometry is the same whatever transform the library
provides), and a record with an absent property mapping gets an empty
properties object. -/
theorem c10_feature_shape (env : Env) (s : FsState) (lib : FionaEnv)
    (b : List Nat) (ds : Dataset)
    (hf : env.fiona = some lib) (hr : env.readSource = Except.ok b)
    (ho : lib.openDs b = Except.ok ds) :
    ∃ feats : List JVal,
      (gpkg_to_geojson env s).1 =
        Except.ok (utf8Encode (jsonDumps (JVal.obj
          [("type", JVal.str "FeatureCollection"), ("features", JVal.arr feats)])))
      ∧ ∀ i : Nat, ∀ r : PyRecord, ds.records[i]? = some r →
          ∃ g p : JVal,
            feats[i]? = some (JVal.obj [("type", JVal.str "Feature"),
              ("geometry", g), ("properties", p)])
            ∧ (r.geometry = JVal.null →
                g = JVal.null
                ∧ ∀ lib2 : FionaEnv, featGeometry lib2 (ds.crs.getD []) r.geometry = r.geometry)
            ∧ (r.properties = JVal.null → p = JVal.obj []) := by
  refine ⟨ds.records.map (mkFeature lib (ds.crs.getD [])), ?_, ?_⟩
  · rw [gpkg_result_eq]
    simp only [convertResult, hf, hr, ho]
  · intro i r hrec
    refine ⟨featGeometry lib (ds.crs.getD []) r.geometry, normProps r.properties, ?_, ?_, ?_⟩
    · rw [List.getElem?_map, hrec]
      rfl
    · intro hnull
      constructor
      · simp [featGeometry, hnull, JVal.truthy]
      · intro lib2
        simp [featGeometry, hnull, JVal.truthy]
    · intro hnull
      simp [normProps, hnull, JVal.truthy]

/-- C10 witness: in the stub dataset the record with null geometry and
null properties is emitted as a Feature with null geometry (independent
of the transform) and empty properties. -/
theorem c10_witness :
    ∃ feats : List JVal,
      (gpkg_to_geojson envLibSame ⟨0, []⟩).1 =
        Except.ok (utf8Encode (jsonDumps (JVal.obj
          [("type", JVal.str "FeatureCollection"), ("features", JVal.arr feats)])))
      ∧ ∀ i : Nat, ∀ r : PyRecord, dsSame.records[i]? = some r →
          ∃ g p : JVal,
            feats[i]? = some (JVal.obj [("type", JVal.str "Feature"),
              ("geometry", g), ("properties", p)])
            ∧ (r.geometry = JVal.null →
                g = JVal.null
                ∧ ∀ lib2 : FionaEnv, featGeometry lib2 (dsSame.crs.getD []) r.geometry = r.geometry)
            ∧ (r.properties = JVal.null → p = JVal.obj []) :=
  c10_feature_shape envLibSame ⟨0, []⟩ libSame [1, 2] dsSame rfl rfl rfl

/-- C3: on the library path, when reprojecting one record's geometry
fails, the conversion still succeeds (no failure is signalled to the
caller) and that record's output feature carries its original,
untransformed geometry. -/
theorem c3_reprojection_best_effort (env : Env) (s : FsState) (lib : FionaEnv)
    (b : List Nat) (ds : Dataset) (i : Nat) (r : PyRecord) (e : String)
    (hf : env.fiona = some lib) (hr : env.readSource = Except.ok b)
    (ho : lib.openDs b = Except.ok ds)
    (hrec : ds.records[i]? = some r)
    (ht : lib.transform_geom (ds.crs.getD []) r.geometry = Except.error e) :
    ∃ feats : List JVal,
      (gpkg_to_geojson env s).1 =
        Except.ok (utf8Encode (jsonDumps (JVal.obj
          [("type", JVal.str "FeatureCollection"), ("features", JVal.arr feats)])))
      ∧ feats[i]? = some (JVal.obj [("type", JVal.str "Feature"),
          ("geometry", r.geometry), ("properties", normProps r.properties)]) := by
  have hfg : featGeometry lib (ds.crs.getD []) r.geometry = r.geometry := by
    unfold featGeometry
    cases hg : r.geometry.truthy with
    | false => simp
    | true =>
      cases hn : needsReproject (ds.crs.getD []) with
      | false => simp [hn]
      | true => simp [hn, ht]
  refine ⟨ds.records.map (mkFeature lib (ds.crs.getD [])), ?_, ?_⟩
  · rw [gpkg_result_eq]
    simp only [convertResult, hf, hr, ho]
  · rw [List.getElem?_map, hrec]
    simp [mkFeature, hfg]

/-- C3 witness: with a transform that always raises and a source CRS
differing from the target, the conversion succeeds and the record keeps
its original geometry. -/
theorem c3_witness :
    ∃ feats : List JVal,
      (gpkg_to_geojson envFailingTransform ⟨0, []⟩).1 =
        Except.ok (utf8Encode (jsonDumps (JVal.obj
          [("type", JVal.str "FeatureCollection"), ("features", JVal.arr feats)])))
      ∧ feats[0]? = some (JVal.obj [("type", JVal.str "Feature"),
          ("geometry", recA.geometry), ("properties", normProps recA.properties)]) :=
  c3_reprojection_best_effort envFailingTransform ⟨0, []⟩ libFailingTransform
    [1, 2] dsOther 0 recA "transform failed" rfl rfl rfl rfl rfl

/-- C5: a present geometry is reprojected if and only if CRS metadata
is present and its "init" identifier differs from "epsg:4326": with no
CRS metadata the geometry is returned unchanged whatever transform the
library has (no reprojection attempted); with the source already in the
target CRS the geometry is likewise unchanged (identity transform
skipped, so no coordinates change); and when metadata is present with a
differing identifier, the transform's output becomes the feature's
geometry. -/
theorem c5_reprojection_condition (lib : FionaEnv)
    (src_crs : List (String × String)) (g : JVal) :
    (src_crs = [] → featGeometry lib src_crs g = g)
    ∧ (src_crs.lookup "init" = some "epsg:4326" → featGeometry lib src_crs g = g)
    ∧ (g.truthy = true → src_crs ≠ [] → src_crs.lookup "init" ≠ some "epsg:4326" →
        ∀ g2 : JVal, lib.transform_geom src_crs g = Except.ok g2 →
          featGeometry lib src_crs g = g2) := by
  refine ⟨?_, ?_, ?_⟩
  · intro hnil
    subst hnil
    cases hg : g.truthy <;> simp [featGeometry, needsReproject, hg]
  · intro hinit
    have hn : needsReproject src_crs = false := by
      simp [needsReproject, hinit]
    cases hg : g.truthy <;> simp [featGeometry, hn, hg]
  · intro hg hne hinit g2 ht
    have hn : needsReproject src_crs = true := by
      cases src_crs with
      | nil => exact absurd rfl hne
      | cons kv rest =>
        simp only [needsReproject, List.isEmpty_cons, Bool.not_false, Bool.true_and]
        simpa using hinit
    simp [featGeometry, hg, hn, ht]

/-- C5 witness: with the transform stub returning `pointGeomB`, the
geometry is unchanged for empty CRS metadata and for a source already
in epsg:4326, and becomes the transform output for epsg:3857. -/
theorem c5_witness :
    featGeometry libToB [] pointGeom = pointGeom
    ∧ featGeometry libToB [("init", "epsg:4326")] pointGeom = pointGeom
    ∧ featGeometry libToB [("init", "epsg:3857")] pointGeom = pointGeomB :=
  ⟨(c5_reprojection_condition libToB [] pointGeom).1 rfl,
   (c5_reprojection_condition libToB [("init", "epsg:4326")] pointGeom).2.1 (by decide),
   (c5_reprojection_condition libToB [("init", "epsg:3857")] pointGeom).2.2
     (by decide) (by decide) (by decide) pointGeomB rfl⟩

/-- C2: at a concrete input where fiona is present but rejects the
bytes (as `fiona.open` raises `DriverError` on a non-GeoPackage), the
escaping exception is the library's own error, which is not the
`RuntimeError` conversion error for any message — contradicting the
function's docstring "Raises: RuntimeError on failure" and the claim
that a single generic conversion error type reaches the caller. -/
theorem c2_non_runtime_error_escapes :
    (gpkg_to_geojson envBadOpen ⟨0, []⟩).1 =
      Except.error (PyErr.libError "not recognized as a supported file format")
    ∧ ∀ msg : String,
        (Except.error (PyErr.libError "not recognized as a supported file format") :
          Except PyErr (List Nat)) ≠ Except.error (PyErr.runtimeError msg) := by
  constructor
  · rfl
  · intro msg h
    injection h with h2
    exact PyErr.noConfusion h2

/-- C4 counterexample: with fiona present and a source object whose
read raises, the call fails and the temporary file — created empty by
`NamedTemporaryFile(delete=False)` before the failing write — remains
on disk after the call, so not every exit path deletes it. -/
theorem c4_counterexample :
    (gpkg_to_geojson envReadFail ⟨0, []⟩).1 = Except.error (PyErr.ioError "read error")
    ∧ ((gpkg_to_geojson envReadFail ⟨0, []⟩).2).files = [(0, [])] := by
  exact ⟨rfl, rfl⟩

/-- C4 (amended): on every exit path of a call in which the process
path is taken or reading the source bytes succeeds — that is, every
exit path except a library-path failure before the source bytes reach
the temporary file — the temporary file created during the call is
deleted before the call returns, leaving the file list exactly as it
was. -/
theorem c4_cleanup_amended (env : Env) (s : FsState)
    (h : env.fiona = none ∨ ∃ b : List Nat, env.readSource = Except.ok b) :
    ((gpkg_to_geojson env s).2).files = s.files := by
  rcases h with hn | ⟨b, hb⟩
  · simp only [gpkg_to_geojson, hn]
    cases hr : env.readSource with
    | error e => simp [unlink_create]
    | ok content =>
      split
      · simp [unlink_create]
      · split <;> simp [unlink_write_create]
  · cases hfi : env.fiona with
    | none =>
      simp only [gpkg_to_geojson, hfi, hb]
      split <;> simp [unlink_write_create]
    | some lib =>
      simp only [gpkg_to_geojson, hfi, hb, readFileD_write_create]
      cases ho : lib.openDs b <;> simp [unlink_write_create]

/-- C4 witness: a successful library-path call leaves the (initially
empty) file list empty. -/
theorem c4_witness :
    ((gpkg_to_geojson envLibSame ⟨0, []⟩).2).files = ([] : List (Nat × List Nat)) :=
  c4_cleanup_amended envLibSame ⟨0, []⟩ (Or.inr ⟨[1, 2], rfl⟩)

end Umap
